import Mathlib

/- Verification development for the routesplanner repository.

   The definitions below are a shallow embedding of the photo-location
   resolution, waypoint bookkeeping and REST persistence logic found in
   src/components/route-planner.tsx, src/app/api/routes/route.ts,
   src/app/api/routes/[routeId]/route.ts and the photo upload handler.
   Numeric latitude/longitude values (JavaScript numbers in the source)
   are modeled as exact rationals.  JavaScript string falsiness (the
   empty string counts as missing) is modeled explicitly where the
   source uses truthiness checks. -/

namespace RoutesPlanner

/-- Geographic coordinate pair, as in the Coordinates type of the source. -/
structure Coordinates where
  lat : ℚ
  lng : ℚ
deriving DecidableEq, Repr

/-- Tag recording where the location of a photo came from, mirroring the
union type in the Photo interface of route-planner.tsx. -/
inductive LocationSource where
  | exif
  | waypoint
deriving DecidableEq, Repr

/-- Waypoint record from route-planner.tsx: id plus coordinates with
optional display name and address. -/
structure Waypoint where
  id : String
  lat : ℚ
  lng : ℚ
  name : Option String := none
  address : Option String := none
deriving DecidableEq, Repr

/-- Photo record from route-planner.tsx.  The description field is always
written as a string by both the client and the upload endpoint (empty
string when absent), so it is a plain String here. -/
structure Photo where
  id : String
  url : String
  location : Coordinates
  waypointId : Option String := none
  description : String := ""
  locationSource : LocationSource
deriving DecidableEq, Repr

/-- Pairing invariant stated in the data-model section of the spec: the
waypointId field is populated only when the locationSource is waypoint. -/
def photoPairingOK (p : Photo) : Prop :=
  p.waypointId ≠ none → p.locationSource = LocationSource.waypoint

instance (p : Photo) : Decidable (photoPairingOK p) := by
  unfold photoPairingOK; infer_instance

/-- Model of convertDMSToDD from route-planner.tsx.  The source returns
null when dms is undefined, when ref is falsy (undefined or the empty
string), or when the triple does not have exactly three entries;
otherwise it computes degrees + minutes/60 + seconds/3600 and negates
the result for a southern or western hemisphere reference. -/
def convertDMSToDD (dms : Option (List ℚ)) (ref : Option String) : Option ℚ :=
  match dms, ref with
  | some ds, some r =>
    if r = "" ∨ ds.length ≠ 3 then none
    else
      let degrees := ds.getD 0 0
      let minutes := ds.getD 1 0
      let seconds := ds.getD 2 0
      let dd := degrees + minutes / 60 + seconds / 3600
      if r = "S" ∨ r = "W" then some (-dd) else some dd
  | _, _ => none

/-- GPS-tag payload of an image file together with the outcome of reading
the file as a data URL.  The readResult field is none when the FileReader
step of handlePhotoFilesSelected fails for the file. -/
structure PhotoFile where
  readResult : Option String
  gpsLatitude : Option (List ℚ)
  gpsLongitude : Option (List ℚ)
  gpsLatitudeRef : Option String
  gpsLongitudeRef : Option String
deriving DecidableEq, Repr

/-- Core of extractLocationFromPhoto in route-planner.tsx: the extraction
succeeds exactly when all four GPS tags are present (with truthy
references) and both DMS triples convert to a number. -/
def extractLocationFromPhoto (f : PhotoFile) : Option Coordinates :=
  match f.gpsLatitude, f.gpsLongitude, f.gpsLatitudeRef, f.gpsLongitudeRef with
  | some la, some lo, some lr, some nr =>
    if lr = "" ∨ nr = "" then none
    else
      match convertDMSToDD (some la) (some lr), convertDMSToDD (some lo) (some nr) with
      | some lat, some lng => some ⟨lat, lng⟩
      | _, _ => none
  | _, _, _, _ => none

/-- Waypoint upload context set by handleAddPhotoClickFromWaypoint. -/
structure WaypointContext where
  id : String
  location : Coordinates
deriving DecidableEq, Repr

/-- Outcome of processing one selected file inside
handlePhotoFilesSelected: either a photo was built, or the file read
failed (Upload Error toast), or no location could be determined and a
destructive Location Missing toast was surfaced with no photo added. -/
inductive FileResult where
  | added (p : Photo)
  | readError
  | locationMissing
deriving DecidableEq, Repr

/-- Per-file body of handlePhotoFilesSelected in route-planner.tsx:
read the file, try EXIF extraction, fall back to the waypoint context,
otherwise reject the file. -/
def processPhotoFile (photoId : String) (f : PhotoFile)
    (ctx : Option WaypointContext) (photoDescription : String) : FileResult :=
  match f.readResult with
  | none => FileResult.readError
  | some dataUrl =>
    match extractLocationFromPhoto f with
    | some loc =>
        FileResult.added
          { id := photoId
            url := dataUrl
            location := loc
            description := photoDescription
            waypointId := none
            locationSource := LocationSource.exif }
    | none =>
      match ctx with
      | some c =>
          FileResult.added
            { id := photoId
              url := dataUrl
              location := c.location
              description := photoDescription
              waypointId := some c.id
              locationSource := LocationSource.waypoint }
      | none => FileResult.locationMissing

/-- Maximum number of intermediate waypoints, the
MAX_INTERMEDIATE_WAYPOINTS constant of route-planner.tsx. -/
def MAX_INTERMEDIATE_WAYPOINTS : Nat := 8

/-- State held by the RoutePlanner component that the embedded handlers
read and write (UI-only fields such as map instances are omitted). -/
structure PlannerState where
  routeName : String
  origin : Option Waypoint
  destination : Option Waypoint
  intermediateWaypoints : List Waypoint
  photos : List Photo
  activeMarker : Option String
  photoUploadWaypointContext : Option WaypointContext
  photoDescription : String
  savedRouteId : Option String
deriving DecidableEq, Repr

/-- Initial component state from the useState initializers in
route-planner.tsx. -/
def initialState : PlannerState :=
  { routeName := "My Awesome Route"
    origin := none
    destination := none
    intermediateWaypoints := []
    photos := []
    activeMarker := none
    photoUploadWaypointContext := none
    photoDescription := ""
    savedRouteId := none }

/-- Relevant fields of a google.maps PlaceResult as consumed by
createWaypoint: a geometry location plus optional name and formatted
address. -/
structure PlaceResult where
  location : Option Coordinates
  name : Option String
  formattedAddress : Option String
deriving DecidableEq, Repr

/-- JavaScript or-else on an optional string: the default is used when
the value is missing or empty (falsy). -/
def jsOr (s : Option String) (dflt : String) : String :=
  match s with
  | some v => if v = "" then dflt else v
  | none => dflt

/-- Fallback address text built from the coordinates.  The source
formats with toFixed(5); the exact digit formatting is irrelevant to
every claim, so the rationals are printed directly. -/
def coordLabel (lat lng : ℚ) : String :=
  "Coordinates: " ++ toString lat ++ ", " ++ toString lng

/-- Model of createWaypoint in route-planner.tsx.  The fresh id string
(wp-timestamp-random in the source) is passed in as a parameter. -/
def createWaypoint (freshId : String) (place : PlaceResult) : Option Waypoint :=
  match place.location with
  | none => none
  | some loc =>
      some
        { id := freshId
          lat := loc.lat
          lng := loc.lng
          name := some (jsOr place.name "Selected Location")
          address := some (jsOr place.formattedAddress (coordLabel loc.lat loc.lng)) }

/-- Model of handleSetOrigin in route-planner.tsx: replace the origin
slot and activate the new marker; a place without geometry is ignored.
The handler does not touch savedRouteId. -/
def handleSetOrigin (freshId : String) (place : PlaceResult) (s : PlannerState) : PlannerState :=
  match createWaypoint freshId place with
  | none => s
  | some w => { s with origin := some w, activeMarker := some w.id }

/-- Model of handleSetDestination in route-planner.tsx. -/
def handleSetDestination (freshId : String) (place : PlaceResult) (s : PlannerState) : PlannerState :=
  match createWaypoint freshId place with
  | none => s
  | some w => { s with destination := some w, activeMarker := some w.id }

/-- Model of addIntermediateWaypoint in route-planner.tsx.  The Bool
result records whether the limit-reached warning toast was surfaced.
The name argument uses nullish coalescing in the source, so only a
missing (not an empty) name is replaced by the synthesized
sequence-based default. -/
def addIntermediateWaypoint (freshId : String) (lat lng : ℚ)
    (name address : Option String) (s : PlannerState) : PlannerState × Bool :=
  if MAX_INTERMEDIATE_WAYPOINTS ≤ s.intermediateWaypoints.length then
    (s, true)
  else
    let w : Waypoint :=
      { id := freshId
        lat := lat
        lng := lng
        name := some (name.getD ("Waypoint " ++ toString (s.intermediateWaypoints.length + 1)))
        address := some (address.getD (coordLabel lat lng)) }
    ({ s with intermediateWaypoints := s.intermediateWaypoints ++ [w],
              activeMarker := some w.id }, false)

/-- Model of handleMapClick in route-planner.tsx, after the reverse
geocode resolved to a name and address (the fallback branch without the
places library behaves identically with hardcoded strings): fill the
origin slot first, then the destination slot, then add an intermediate
waypoint subject to the maximum check.  The Bool records whether the
limit-reached warning was surfaced. -/
def handleMapClick (freshId : String) (lat lng : ℚ) (name address : String)
    (s : PlannerState) : PlannerState × Bool :=
  let place : PlaceResult :=
    { location := some ⟨lat, lng⟩, name := some name, formattedAddress := some address }
  if s.origin = none then
    (handleSetOrigin freshId place s, false)
  else if s.destination = none then
    (handleSetDestination freshId place s, false)
  else if s.intermediateWaypoints.length < MAX_INTERMEDIATE_WAYPOINTS then
    addIntermediateWaypoint freshId lat lng (some name) (some address) s
  else
    (s, true)

/-- Predicate of the photosToRemove filter inside removeWaypoint: the
photo is explicitly linked to the waypoint, meaning its waypointId
matches AND its locationSource is waypoint. -/
def linkedToWaypoint (id : String) (p : Photo) : Bool :=
  decide (p.waypointId = some id ∧ p.locationSource = LocationSource.waypoint)

/-- The photosToRemove list computed by removeWaypoint: ids of the
photos explicitly linked to the removed waypoint. -/
def waypointLinkedPhotoIds (id : String) (photos : List Photo) : List String :=
  (photos.filter (linkedToWaypoint id)).map Photo.id

/-- Photo-collection update performed by removeWaypoint: when the
photosToRemove list is non-empty, keep only the photos whose id is not
in it; otherwise leave the collection untouched. -/
def cascadeDeletePhotos (id : String) (photos : List Photo) : List Photo :=
  if 0 < (waypointLinkedPhotoIds id photos).length then
    photos.filter (fun p => ¬ (waypointLinkedPhotoIds id photos).contains p.id)
  else photos

/-- Slot update performed by removeWaypoint: clear the origin or
destination slot when the id matches one of them, otherwise filter the
intermediate collection. -/
def removeWaypointSlot (id : String) (s : PlannerState) : PlannerState :=
  if s.origin.any (fun w => w.id = id) then
    { s with origin := none }
  else if s.destination.any (fun w => w.id = id) then
    { s with destination := none }
  else
    { s with intermediateWaypoints := s.intermediateWaypoints.filter (fun w => w.id ≠ id) }

/-- Model of removeWaypoint in route-planner.tsx: update the matching
slot, close the info window if it was open for this marker,
cascade-delete the photos explicitly linked to the waypoint, and clear
the saved route id. -/
def removeWaypoint (id : String) (s : PlannerState) : PlannerState :=
  let s1 := removeWaypointSlot id s
  let s2 := if s1.activeMarker = some id then { s1 with activeMarker := none } else s1
  { s2 with photos := cascadeDeletePhotos id s.photos, savedRouteId := none }

/-- Model of removePhoto in route-planner.tsx. -/
def removePhoto (id : String) (s : PlannerState) : PlannerState :=
  let s1 := { s with photos := s.photos.filter (fun p => p.id ≠ id) }
  let s2 := if s1.activeMarker = some id then { s1 with activeMarker := none } else s1
  { s2 with savedRouteId := none }

/-- Model of handleAddPhotoClickFromWaypoint in route-planner.tsx: store
the waypoint upload context and keep the info window open. -/
def handleAddPhotoClickFromWaypoint (w : Waypoint) (s : PlannerState) : PlannerState :=
  { s with photoUploadWaypointContext := some ⟨w.id, ⟨w.lat, w.lng⟩⟩,
           activeMarker := some w.id }

/-- Model of handleInfoWindowClose in route-planner.tsx. -/
def handleInfoWindowClose (s : PlannerState) : PlannerState :=
  { s with activeMarker := none,
           photoUploadWaypointContext := none,
           photoDescription := "" }

/-- Model of handlePhotoFilesSelected in route-planner.tsx over a batch
of selected files, each paired with its fresh photo id.  An empty
selection only clears the context; otherwise every file is processed
against the current context and description, the successfully resolved
photos are appended, and the context, description and file input are
reset. -/
def handlePhotoFilesSelected (files : List (String × PhotoFile)) (s : PlannerState) : PlannerState :=
  if files.isEmpty then
    { s with photoUploadWaypointContext := none }
  else
    let results := files.map (fun fp =>
      processPhotoFile fp.1 fp.2 s.photoUploadWaypointContext s.photoDescription)
    let successful := results.filterMap (fun r =>
      match r with
      | FileResult.added p => some p
      | _ => none)
    { s with photos := s.photos ++ successful,
             photoUploadWaypointContext := none,
             photoDescription := "" }

/-- Model of the success path of handleSaveRoute in route-planner.tsx:
the save is refused when the trimmed name is empty or a slot is missing,
otherwise the freshly generated id is stored. -/
def handleSaveRouteSuccess (generatedRouteId : String) (s : PlannerState) : PlannerState :=
  if s.routeName.trim = "" ∨ s.origin = none ∨ s.destination = none then s
  else { s with savedRouteId := some generatedRouteId }

/-- Model of the failure path of handleSaveRoute (storage error): the
saved id is cleared. -/
def handleSaveRouteFailure (s : PlannerState) : PlannerState :=
  if s.routeName.trim = "" ∨ s.origin = none ∨ s.destination = none then s
  else { s with savedRouteId := none }

/-- One user-driven transition of the RoutePlanner component. -/
inductive Step where
  | setRouteName (name : String)
  | setOrigin (freshId : String) (place : PlaceResult)
  | setDestination (freshId : String) (place : PlaceResult)
  | addIntermediate (freshId : String) (lat lng : ℚ) (name address : Option String)
  | mapClick (freshId : String) (lat lng : ℚ) (name address : String)
  | removeWaypointStep (id : String)
  | removePhotoStep (id : String)
  | addPhotoClick (w : Waypoint)
  | infoWindowClose
  | setPhotoDescription (d : String)
  | filesSelected (files : List (String × PhotoFile))
  | saveSuccess (generatedRouteId : String)
  | saveFailure

/-- Interpretation of one transition. -/
def applyStep (st : Step) (s : PlannerState) : PlannerState :=
  match st with
  | Step.setRouteName n => { s with routeName := n }
  | Step.setOrigin fid place => handleSetOrigin fid place s
  | Step.setDestination fid place => handleSetDestination fid place s
  | Step.addIntermediate fid lat lng nm ad => (addIntermediateWaypoint fid lat lng nm ad s).1
  | Step.mapClick fid lat lng nm ad => (handleMapClick fid lat lng nm ad s).1
  | Step.removeWaypointStep id => removeWaypoint id s
  | Step.removePhotoStep id => removePhoto id s
  | Step.addPhotoClick w => handleAddPhotoClickFromWaypoint w s
  | Step.infoWindowClose => handleInfoWindowClose s
  | Step.setPhotoDescription d => { s with photoDescription := d }
  | Step.filesSelected files => handlePhotoFilesSelected files s
  | Step.saveSuccess rid => handleSaveRouteSuccess rid s
  | Step.saveFailure => handleSaveRouteFailure s

/-- Controller states reachable from the initial component state by the
handlers above. -/
inductive Reachable : PlannerState → Prop where
  | init : Reachable initialState
  | step : ∀ (s : PlannerState) (st : Step), Reachable s → Reachable (applyStep st s)

/-- Route document stored in the database, after the Mongoose Route
schema (timestamps omitted). -/
structure RouteDoc where
  id : String
  name : String
  origin : Waypoint
  destination : Waypoint
  intermediateWaypoints : List Waypoint
  photos : List Photo
  creatorId : String
deriving DecidableEq, Repr

/-- JSON body of POST /api/routes.  Every field the handler checks with
a truthiness test is optional here; absent array fields default to empty
as in the schema. -/
structure RouteBody where
  id : Option String
  name : Option String
  origin : Option Waypoint
  destination : Option Waypoint
  intermediateWaypoints : List Waypoint
  photos : List Photo
  creatorId : Option String
deriving DecidableEq, Repr

/-- Truthiness of an optional string field in a request body: present
and non-empty. -/
def presentStr (s : Option String) : Bool :=
  s.getD "" ≠ ""

/-- Validation performed by POST /api/routes: the handler rejects the
body when id, name, origin, destination or creatorId is falsy. -/
def routeBodyValid (b : RouteBody) : Bool :=
  presentStr b.id && presentStr b.name && b.origin.isSome &&
    b.destination.isSome && presentStr b.creatorId

/-- Route document written by the upsert of POST /api/routes (updateOne
with a full $set of the body). -/
def docOfBody (i n c : String) (o d : Waypoint) (b : RouteBody) : RouteDoc :=
  { id := i
    name := n
    origin := o
    destination := d
    intermediateWaypoints := b.intermediateWaypoints
    photos := b.photos
    creatorId := c }

/-- Replace-or-append semantics of updateOne with upsert true, keyed by
the route id field. -/
def upsertDoc (i : String) (doc : RouteDoc) (db : List RouteDoc) : List RouteDoc :=
  match db.find? (fun r => r.id = i) with
  | some _ => db.map (fun r => if r.id = i then doc else r)
  | none => db ++ [doc]

/-- Model of POST /api/routes in src/app/api/routes/route.ts: 400 on a
falsy required field (id, name, origin, destination, creatorId),
otherwise upsert by id with HTTP status 201 when a new document was
inserted and 200 when an existing one was matched. -/
def routesPOST (b : RouteBody) (db : List RouteDoc) : Nat × List RouteDoc :=
  match b.id, b.name, b.origin, b.destination, b.creatorId with
  | some i, some n, some o, some d, some c =>
    if i = "" ∨ n = "" ∨ c = "" then (400, db)
    else
      let doc := docOfBody i n c o d b
      match db.find? (fun r => r.id = i) with
      | some _ => (200, upsertDoc i doc db)
      | none => (201, upsertDoc i doc db)
  | _, _, _, _, _ => (400, db)

/-- Model of GET /api/routes/:routeId in
src/app/api/routes/[routeId]/route.ts: 400 on a missing id, 404 when no
document has the id, otherwise 200 with the document. -/
def routeGET (routeId : String) (db : List RouteDoc) : Nat × Option RouteDoc :=
  if routeId = "" then (400, none)
  else
    match db.find? (fun r => r.id = routeId) with
    | some r => (200, some r)
    | none => (404, none)

/-- JSON body of POST /api/photos/upload.  The location field is an
object (only absence is falsy); locationSource is checked for
truthiness, so it is optional with the empty-string case folded into
absence by using the enum type. -/
structure UploadBody where
  routeId : String
  photoDataUrl : String
  location : Option Coordinates
  description : String
  waypointId : Option String
  locationSource : Option LocationSource
deriving DecidableEq, Repr

/-- Photo metadata object built by POST /api/photos/upload: the
waypointId and locationSource fields are copied verbatim from the
request body.  The fresh photo id and the storage URL are parameters. -/
def mkUploadPhoto (photoId photoUrl : String) (loc : Coordinates)
    (b : UploadBody) (src : LocationSource) : Photo :=
  { id := photoId
    url := photoUrl
    location := loc
    description := b.description
    waypointId := b.waypointId
    locationSource := src }

/-- Model of POST /api/photos/upload: 400 on a falsy required field,
404 when the target route does not exist, otherwise push the photo
built from the body onto the photos array of the route and answer
201. -/
def uploadPhotoPOST (b : UploadBody) (photoId photoUrl : String)
    (db : List RouteDoc) : Nat × List RouteDoc :=
  match b.location, b.locationSource with
  | some loc, some src =>
    if b.routeId = "" ∨ b.photoDataUrl = "" then (400, db)
    else if (db.find? (fun r => r.id = b.routeId)).isSome then
      (201, db.map (fun r =>
        if r.id = b.routeId then
          { r with photos := r.photos ++ [mkUploadPhoto photoId photoUrl loc b src] }
        else r))
    else (404, db)
  | _, _ => (400, db)

/- Concrete sample values used by witnesses and counterexamples. -/

/-- Sample origin waypoint. -/
def sampleOriginW : Waypoint :=
  { id := "wp-origin", lat := (377749 : ℚ) / 10000, lng := (-1224194 : ℚ) / 10000,
    name := some "Start", address := some "A" }

/-- Sample destination waypoint. -/
def sampleDestW : Waypoint :=
  { id := "wp-dest", lat := (377588 : ℚ) / 10000, lng := (-1225134 : ℚ) / 10000,
    name := some "End", address := some "B" }

/-- Sample intermediate stop. -/
def sampleStopW : Waypoint :=
  { id := "wp-stop", lat := 37, lng := -122, name := some "Stop", address := none }

/-- Photo file carrying complete, valid GPS tags. -/
def samplePhotoFileExif : PhotoFile :=
  { readResult := some "data-url-exif"
    gpsLatitude := some [37, 46, 30]
    gpsLongitude := some [122, 25, 10]
    gpsLatitudeRef := some "N"
    gpsLongitudeRef := some "W" }

/-- Photo file with no GPS tags at all. -/
def samplePhotoFileNoGps : PhotoFile :=
  { readResult := some "data-url-plain"
    gpsLatitude := none
    gpsLongitude := none
    gpsLatitudeRef := none
    gpsLongitudeRef := none }

/-- Sample waypoint upload context. -/
def sampleCtx : WaypointContext :=
  { id := "wp-stop", location := ⟨37, -122⟩ }

/-- Sample place result with geometry. -/
def samplePlace : PlaceResult :=
  { location := some ⟨40, -70⟩, name := some "Somewhere", formattedAddress := some "Addr" }

/-- Planner state holding a previously saved route id. -/
def sampleSavedState : PlannerState :=
  { routeName := "Trip"
    origin := some sampleOriginW
    destination := some sampleDestW
    intermediateWaypoints := []
    photos := []
    activeMarker := none
    photoUploadWaypointContext := none
    photoDescription := ""
    savedRouteId := some "route-123456" }

/-- Photo linked to waypoint wp-2 through the waypoint fallback. -/
def linkedPhoto : Photo :=
  { id := "photo-a", url := "u-a", location := ⟨5, 6⟩,
    waypointId := some "wp-2", description := "", locationSource := LocationSource.waypoint }

/-- EXIF-sourced photo whose stored waypointId coincides with wp-2. -/
def coincidingExifPhoto : Photo :=
  { id := "photo-b", url := "u-b", location := ⟨7, 8⟩,
    waypointId := some "wp-2", description := "", locationSource := LocationSource.exif }

/-- Planner state exercising the deletion cascade of removeWaypoint. -/
def cascadeState : PlannerState :=
  { routeName := "Trip"
    origin := some sampleOriginW
    destination := some sampleDestW
    intermediateWaypoints := [{ id := "wp-2", lat := 5, lng := 6, name := none, address := none }]
    photos := [linkedPhoto, coincidingExifPhoto]
    activeMarker := none
    photoUploadWaypointContext := none
    photoDescription := ""
    savedRouteId := some "route-123456" }

/-- Request body for POST /api/routes with the four spec-listed fields
present but creatorId absent. -/
def missingCreatorBody : RouteBody :=
  { id := some "route-1", name := some "Trip", origin := some sampleOriginW,
    destination := some sampleDestW, intermediateWaypoints := [], photos := [],
    creatorId := none }

/-- Request body for POST /api/routes with every required field
present. -/
def goodRouteBody : RouteBody :=
  { id := some "r2", name := some "Trip2", origin := some sampleOriginW,
    destination := some sampleDestW, intermediateWaypoints := [], photos := [],
    creatorId := some "user-2" }

/-- Route document already present in the database. -/
def sampleRouteDoc : RouteDoc :=
  { id := "r1", name := "Trip", origin := sampleOriginW, destination := sampleDestW,
    intermediateWaypoints := [], photos := [], creatorId := "user-1" }

/-- Upload request declaring an EXIF location source while still
carrying a waypointId. -/
def exifUploadBody : UploadBody :=
  { routeId := "r1", photoDataUrl := "data-url-x", location := some ⟨1, 2⟩,
    description := "", waypointId := some "wp-1",
    locationSource := some LocationSource.exif }

/-- Upload request whose fields respect the pairing invariant. -/
def pairedUploadBody : UploadBody :=
  { routeId := "r1", photoDataUrl := "data-url-y", location := some ⟨3, 4⟩,
    description := "", waypointId := some "wp-1",
    locationSource := some LocationSource.waypoint }

/- Theorems. -/

/-- C5: convertDMSToDD returns the negated sum d + m/60 + s/3600 for a
southern or western reference, the positive sum for a northern or
eastern reference, and absent (none) for a triple whose length is not
exactly 3 or for a missing reference, without raising an exception. -/
theorem convertDMSToDD_spec (d m s : ℚ) (r : String) :
    ((r = "S" ∨ r = "W") →
      convertDMSToDD (some [d, m, s]) (some r) = some (-(d + m / 60 + s / 3600)))
    ∧ ((r = "N" ∨ r = "E") →
      convertDMSToDD (some [d, m, s]) (some r) = some (d + m / 60 + s / 3600))
    ∧ (∀ l : List ℚ, l.length ≠ 3 → convertDMSToDD (some l) (some r) = none)
    ∧ convertDMSToDD (some [d, m, s]) none = none
    ∧ convertDMSToDD none (some r) = none := by
  refine ⟨?_, ?_, ?_, rfl, rfl⟩
  · rintro (rfl | rfl) <;> simp [convertDMSToDD]
  · rintro (rfl | rfl) <;> simp [convertDMSToDD]
  · intro l hl
    simp [convertDMSToDD, hl]

/-- Witness instantiating convertDMSToDD_spec on concrete inputs. -/
theorem convertDMSToDD_spec_witness :
    convertDMSToDD (some [10, 30, 36]) (some "W") = some (-(10 + 30 / 60 + 36 / 3600))
    ∧ convertDMSToDD (some [10, 30]) (some "N") = none := by
  refine ⟨(convertDMSToDD_spec 10 30 36 "W").1 (Or.inr rfl), ?_⟩
  exact (convertDMSToDD_spec 10 30 36 "N").2.2.1 [10, 30] (by decide)

/-- C2: for every readable photo upload whose file carries valid
embedded GPS tags, handlePhotoFilesSelected builds a photo whose
locationSource is exif and whose waypointId is unset, regardless of the
active waypoint context. -/
theorem photoUpload_exif_spec (photoId : String) (f : PhotoFile)
    (ctx : Option WaypointContext) (desc dataUrl : String) (loc : Coordinates)
    (hread : f.readResult = some dataUrl)
    (hgps : extractLocationFromPhoto f = some loc) :
    processPhotoFile photoId f ctx desc =
      FileResult.added
        { id := photoId, url := dataUrl, location := loc, description := desc,
          waypointId := none, locationSource := LocationSource.exif } := by
  simp [processPhotoFile, hread, hgps]

/-- Witness instantiating photoUpload_exif_spec on a concrete file with
valid GPS tags and an active waypoint context. -/
theorem photoUpload_exif_spec_witness :
    processPhotoFile "photo-1" samplePhotoFileExif (some sampleCtx) "cap" =
      FileResult.added
        { id := "photo-1", url := "data-url-exif",
          location := ⟨37 + 46 / 60 + 30 / 3600, -(122 + 25 / 60 + 10 / 3600)⟩,
          description := "cap", waypointId := none,
          locationSource := LocationSource.exif } :=
  photoUpload_exif_spec "photo-1" samplePhotoFileExif (some sampleCtx) "cap"
    "data-url-exif" ⟨37 + 46 / 60 + 30 / 3600, -(122 + 25 / 60 + 10 / 3600)⟩
    rfl (by simp [extractLocationFromPhoto, samplePhotoFileExif, convertDMSToDD])

/-- C3: for every readable photo upload without valid GPS tags, an
active waypoint context yields a photo located exactly at the context
waypoint with locationSource waypoint and waypointId equal to that
waypoint id; without a context the file is rejected with an error and,
through handlePhotoFilesSelected, adds no photo to the collection. -/
theorem photoUpload_waypointFallback_spec (photoId : String) (f : PhotoFile)
    (desc dataUrl : String)
    (hread : f.readResult = some dataUrl)
    (hgps : extractLocationFromPhoto f = none) :
    (∀ c : WaypointContext,
      processPhotoFile photoId f (some c) desc =
        FileResult.added
          { id := photoId, url := dataUrl, location := c.location, description := desc,
            waypointId := some c.id, locationSource := LocationSource.waypoint })
    ∧ processPhotoFile photoId f none desc = FileResult.locationMissing
    ∧ (∀ s : PlannerState, s.photoUploadWaypointContext = none →
        (handlePhotoFilesSelected [(photoId, f)] s).photos = s.photos) := by
  refine ⟨fun c => by simp [processPhotoFile, hread, hgps], by simp [processPhotoFile, hread, hgps], ?_⟩
  intro s hs
  simp [handlePhotoFilesSelected, processPhotoFile, hread, hgps, hs]

/-- Witness instantiating photoUpload_waypointFallback_spec on a
concrete GPS-free file. -/
theorem photoUpload_waypointFallback_spec_witness :
    processPhotoFile "photo-2" samplePhotoFileNoGps (some sampleCtx) "" =
      FileResult.added
        { id := "photo-2", url := "data-url-plain", location := ⟨37, -122⟩,
          description := "", waypointId := some "wp-stop",
          locationSource := LocationSource.waypoint }
    ∧ processPhotoFile "photo-2" samplePhotoFileNoGps none "" = FileResult.locationMissing := by
  have h := photoUpload_waypointFallback_spec "photo-2" samplePhotoFileNoGps ""
    "data-url-plain" rfl (by decide)
  exact ⟨h.1 sampleCtx, h.2.1⟩

/-- Membership in the photosToRemove list unfolded. -/
lemma mem_waypointLinkedPhotoIds (id : String) (photos : List Photo) (x : String) :
    x ∈ waypointLinkedPhotoIds id photos ↔
      ∃ q, q ∈ photos ∧ linkedToWaypoint id q = true ∧ q.id = x := by
  simp [waypointLinkedPhotoIds, List.mem_map, List.mem_filter, and_assoc]

/-- When photo ids are unique, deleting by collected ids is the same as
filtering by the linking predicate directly. -/
lemma cascadeDeletePhotos_eq_filter (id : String) (photos : List Photo)
    (hnd : (photos.map Photo.id).Nodup) :
    cascadeDeletePhotos id photos = photos.filter (fun p => ! linkedToWaypoint id p) := by
  have key : ∀ p ∈ photos,
      ((waypointLinkedPhotoIds id photos).contains p.id = true ↔ linkedToWaypoint id p = true) := by
    intro p hp
    constructor
    · intro hc
      have hm : p.id ∈ waypointLinkedPhotoIds id photos := List.elem_iff.mp hc
      obtain ⟨q, hq, hlq, hid⟩ := (mem_waypointLinkedPhotoIds id photos p.id).mp hm
      have hqp : q = p := List.inj_on_of_nodup_map hnd hq hp hid
      subst hqp
      exact hlq
    · intro hl
      exact List.elem_iff.mpr
        ((mem_waypointLinkedPhotoIds id photos p.id).mpr ⟨p, hp, hl, rfl⟩)
  have keyEq : ∀ p ∈ photos,
      (waypointLinkedPhotoIds id photos).contains p.id = linkedToWaypoint id p := by
    intro p hp
    exact Bool.coe_iff_coe.mp (key p hp)
  unfold cascadeDeletePhotos
  by_cases h : 0 < (waypointLinkedPhotoIds id photos).length
  · rw [if_pos h]
    apply List.filter_congr
    intro p hp
    dsimp only
    rw [keyEq p hp]
    simp
  · rw [if_neg h]
    have hempty : waypointLinkedPhotoIds id photos = [] := by
      cases hh : waypointLinkedPhotoIds id photos with
      | nil => rfl
      | cons a tl => rw [hh] at h; simp at h
    have hnone : ∀ p ∈ photos, linkedToWaypoint id p = false := by
      intro p hp
      rcases Bool.eq_false_or_eq_true (linkedToWaypoint id p) with hh | hh
      · have hmem : p.id ∈ waypointLinkedPhotoIds id photos :=
          (mem_waypointLinkedPhotoIds id photos p.id).mpr ⟨p, hp, hh, rfl⟩
        rw [hempty] at hmem
        simp at hmem
      · exact hh
    symm
    apply List.filter_eq_self.mpr
    intro p hp
    simp [hnone p hp]

/-- Field-level description of removeWaypoint in terms of its slot
update and photo cascade. -/
lemma removeWaypoint_fields (id : String) (s : PlannerState) :
    (removeWaypoint id s).origin = (removeWaypointSlot id s).origin
    ∧ (removeWaypoint id s).destination = (removeWaypointSlot id s).destination
    ∧ (removeWaypoint id s).intermediateWaypoints = (removeWaypointSlot id s).intermediateWaypoints
    ∧ (removeWaypoint id s).photos = cascadeDeletePhotos id s.photos
    ∧ (removeWaypoint id s).savedRouteId = none
    ∧ (removeWaypoint id s).routeName = (removeWaypointSlot id s).routeName := by
  unfold removeWaypoint
  by_cases h : (removeWaypointSlot id s).activeMarker = some id <;> simp [h]

/-- The slot update of removeWaypoint never touches the other fields. -/
lemma removeWaypointSlot_frame (id : String) (s : PlannerState) :
    (removeWaypointSlot id s).photos = s.photos
    ∧ (removeWaypointSlot id s).routeName = s.routeName
    ∧ (removeWaypointSlot id s).savedRouteId = s.savedRouteId := by
  unfold removeWaypointSlot
  by_cases h1 : s.origin.any (fun w => w.id = id) <;>
    by_cases h2 : s.destination.any (fun w => w.id = id) <;>
      simp [h1, h2]

/-- C4: removeWaypoint clears the matching origin or destination slot,
otherwise filters the intermediate collection; it cascade-deletes
exactly the photos with matching waypointId AND locationSource
waypoint, and keeps every EXIF-sourced photo even when its stored
waypointId coincides with the removed id (photo ids being unique, per
the data model). -/
theorem removeWaypoint_spec (id : String) (s : PlannerState)
    (hnd : (s.photos.map Photo.id).Nodup) :
    (s.origin.any (fun w => w.id = id) = true →
      (removeWaypoint id s).origin = none
      ∧ (removeWaypoint id s).destination = s.destination
      ∧ (removeWaypoint id s).intermediateWaypoints = s.intermediateWaypoints)
    ∧ (s.origin.any (fun w => w.id = id) = false →
       s.destination.any (fun w => w.id = id) = true →
      (removeWaypoint id s).destination = none
      ∧ (removeWaypoint id s).origin = s.origin
      ∧ (removeWaypoint id s).intermediateWaypoints = s.intermediateWaypoints)
    ∧ (s.origin.any (fun w => w.id = id) = false →
       s.destination.any (fun w => w.id = id) = false →
      (removeWaypoint id s).intermediateWaypoints =
        s.intermediateWaypoints.filter (fun w => w.id ≠ id)
      ∧ (removeWaypoint id s).origin = s.origin
      ∧ (removeWaypoint id s).destination = s.destination)
    ∧ (removeWaypoint id s).photos = s.photos.filter (fun p => ! linkedToWaypoint id p)
    ∧ (∀ p ∈ s.photos, p.locationSource = LocationSource.exif →
        p ∈ (removeWaypoint id s).photos) := by
  obtain ⟨ho, hd, hi, hp, _, _⟩ := removeWaypoint_fields id s
  have hphotos : (removeWaypoint id s).photos =
      s.photos.filter (fun p => ! linkedToWaypoint id p) :=
    hp.trans (cascadeDeletePhotos_eq_filter id s.photos hnd)
  refine ⟨?_, ?_, ?_, hphotos, ?_⟩
  · intro h1
    rw [ho, hd, hi]
    unfold removeWaypointSlot
    simp [h1]
  · intro h1 h2
    rw [ho, hd, hi]
    unfold removeWaypointSlot
    simp [h1, h2]
  · intro h1 h2
    rw [ho, hd, hi]
    unfold removeWaypointSlot
    simp [h1, h2]
  · intro p hp2 hsrc
    rw [hphotos]
    refine List.mem_filter.mpr ⟨hp2, ?_⟩
    simp [linkedToWaypoint, hsrc]

/-- Witness instantiating removeWaypoint_spec on a state where an
EXIF photo carries a coinciding waypointId. -/
theorem removeWaypoint_spec_witness :
    (removeWaypoint "wp-2" cascadeState).photos = [coincidingExifPhoto]
    ∧ (removeWaypoint "wp-2" cascadeState).intermediateWaypoints = [] := by
  have h := removeWaypoint_spec "wp-2" cascadeState (by decide)
  constructor
  · exact h.2.2.2.1.trans (by decide)
  · exact ((h.2.2.1 (by decide) (by decide)).1).trans (by decide)

/-- Frame of removePhoto over the fields it does not target. -/
lemma removePhoto_frame (id : String) (s : PlannerState) :
    (removePhoto id s).savedRouteId = none
    ∧ (removePhoto id s).routeName = s.routeName
    ∧ (removePhoto id s).origin = s.origin
    ∧ (removePhoto id s).destination = s.destination
    ∧ (removePhoto id s).intermediateWaypoints = s.intermediateWaypoints := by
  unfold removePhoto
  dsimp only
  split <;> simp

/-- C10: both removeWaypoint and removePhoto reset the saved route id
to none, while leaving the route name, and for removePhoto the waypoint
collections, unchanged. -/
theorem removal_resets_savedRouteId_spec (id : String) (s : PlannerState) :
    (removeWaypoint id s).savedRouteId = none
    ∧ (removeWaypoint id s).routeName = s.routeName
    ∧ (removePhoto id s).savedRouteId = none
    ∧ (removePhoto id s).routeName = s.routeName
    ∧ (removePhoto id s).origin = s.origin
    ∧ (removePhoto id s).destination = s.destination
    ∧ (removePhoto id s).intermediateWaypoints = s.intermediateWaypoints := by
  obtain ⟨_, _, _, _, hsv, hrn⟩ := removeWaypoint_fields id s
  obtain ⟨h1, h2, h3, h4, h5⟩ := removePhoto_frame id s
  exact ⟨hsv, hrn.trans (removeWaypointSlot_frame id s).2.1, h1, h2, h3, h4, h5⟩

/-- C9 counterexample: in a state holding a saved route id, setting a
new origin replaces the slot but leaves the saved route id in place,
contradicting the claim that the identifier is invalidated. -/
theorem setOrigin_savedRouteId_counterexample :
    (handleSetOrigin "wp-new" samplePlace sampleSavedState).origin.map Waypoint.id
      = some "wp-new"
    ∧ (handleSetOrigin "wp-new" samplePlace sampleSavedState).savedRouteId
      = some "route-123456" := by
  exact ⟨rfl, rfl⟩

/-- C9 (amended): handleSetOrigin and handleSetDestination replace the
respective slot when the place has a geometry location, but leave
savedRouteId unchanged; the saved-route identifier is only cleared by
removals and save failures, not by setting origin or destination. -/
theorem setOriginDestination_spec (freshId : String) (place : PlaceResult) (s : PlannerState) :
    (handleSetOrigin freshId place s).savedRouteId = s.savedRouteId
    ∧ (handleSetDestination freshId place s).savedRouteId = s.savedRouteId
    ∧ (∀ w, createWaypoint freshId place = some w →
        (handleSetOrigin freshId place s).origin = some w
        ∧ (handleSetDestination freshId place s).destination = some w) := by
  refine ⟨?_, ?_, ?_⟩
  · unfold handleSetOrigin
    cases createWaypoint freshId place <;> simp
  · unfold handleSetDestination
    cases createWaypoint freshId place <;> simp
  · intro w hw
    constructor <;> simp [handleSetOrigin, handleSetDestination, hw]

/-- Witness instantiating setOriginDestination_spec on a concrete place
and a state holding a saved id. -/
theorem setOriginDestination_spec_witness :
    (handleSetOrigin "wp-9" samplePlace sampleSavedState).savedRouteId
      = sampleSavedState.savedRouteId
    ∧ (handleSetOrigin "wp-9" samplePlace sampleSavedState).origin =
        some { id := "wp-9", lat := 40, lng := -70,
               name := some "Somewhere", address := some "Addr" } := by
  have h := setOriginDestination_spec "wp-9" samplePlace sampleSavedState
  exact ⟨h.1, (h.2.2 _ rfl).1⟩

/-- C7 counterexample: a request body carrying id, name, origin and
destination but no creatorId is rejected with 400 by POST /api/routes,
although the claim lists only the first four fields as required. -/
theorem routesPOST_counterexample :
    missingCreatorBody.id = some "route-1"
    ∧ missingCreatorBody.name = some "Trip"
    ∧ missingCreatorBody.origin.isSome = true
    ∧ missingCreatorBody.destination.isSome = true
    ∧ (routesPOST missingCreatorBody []).1 = 400 :=
  ⟨rfl, rfl, rfl, rfl, rfl⟩

/-- C7 (amended): POST /api/routes returns 400 exactly when one of the
required fields id, name, origin, destination, creatorId is missing
(or, for the string fields, empty); otherwise it upserts the document
keyed by id and returns 201 when no document with that id existed and
200 when one did. -/
theorem routesPOST_status_spec (b : RouteBody) (db : List RouteDoc) :
    ((routesPOST b db).1 = 400 ↔ routeBodyValid b = false)
    ∧ (routeBodyValid b = true →
        ((db.find? fun r => r.id = b.id.getD "") = none → (routesPOST b db).1 = 201)
        ∧ (∀ r0, (db.find? fun r => r.id = b.id.getD "") = some r0 →
            (routesPOST b db).1 = 200)) := by
  obtain ⟨bid, bname, borg, bdst, biw, bph, bcid⟩ := b
  cases bid with
  | none => simp [routesPOST, routeBodyValid, presentStr]
  | some i =>
  cases bname with
  | none => simp [routesPOST, routeBodyValid, presentStr]
  | some n =>
  cases borg with
  | none => simp [routesPOST, routeBodyValid, presentStr]
  | some o =>
  cases bdst with
  | none => simp [routesPOST, routeBodyValid, presentStr]
  | some d =>
  cases bcid with
  | none => simp [routesPOST, routeBodyValid, presentStr]
  | some c =>
  by_cases hi : i = ""
  · simp [routesPOST, routeBodyValid, presentStr, hi]
  · by_cases hn : n = ""
    · simp [routesPOST, routeBodyValid, presentStr, hi, hn]
    · by_cases hc : c = ""
      · simp [routesPOST, routeBodyValid, presentStr, hi, hn, hc]
      · cases hf : db.find? (fun r => r.id = i) <;>
          simp [routesPOST, routeBodyValid, presentStr, hi, hn, hc, hf]

/-- Witness instantiating routesPOST_status_spec on a fully valid body
and an empty database. -/
theorem routesPOST_status_spec_witness :
    (routesPOST goodRouteBody []).1 = 201 := by
  have h := (routesPOST_status_spec goodRouteBody []).2 (by decide)
  exact h.1 rfl

/-- The second component of a valid POST /api/routes call is the
upserted database. -/
lemma routesPOST_snd_valid (i n c : String) (o d : Waypoint) (iw : List Waypoint)
    (ph : List Photo) (db : List RouteDoc) (hi : i ≠ "") (hn : n ≠ "") (hc : c ≠ "") :
    (routesPOST ⟨some i, some n, some o, some d, iw, ph, some c⟩ db).2 =
      upsertDoc i ⟨i, n, o, d, iw, ph, c⟩ db := by
  have hdoc : docOfBody i n c o d ⟨some i, some n, some o, some d, iw, ph, some c⟩ =
      (⟨i, n, o, d, iw, ph, c⟩ : RouteDoc) := rfl
  simp only [routesPOST, hi, hn, hc, or_self, if_false, false_or, if_neg, hdoc]
  cases db.find? (fun r => r.id = i) <;> simp [hdoc]

/-- Replacing the matching document keeps it findable: find? over the
replace map yields the new document whenever some document matched. -/
lemma find?_map_replace (i : String) (doc : RouteDoc) (hdoc : doc.id = i) :
    ∀ db : List RouteDoc, (db.find? (fun r => r.id = i)).isSome = true →
      (db.map (fun r => if r.id = i then doc else r)).find? (fun r => r.id = i) = some doc := by
  intro db
  induction db with
  | nil => intro h; simp at h
  | cons a tl ih =>
      intro h
      by_cases ha : a.id = i
      · simp only [List.map_cons, if_pos ha]
        exact List.find?_cons_of_pos _ (by simp [hdoc])
      · simp only [List.map_cons, if_neg ha]
        rw [List.find?_cons_of_neg _ (by simp [ha])]
        apply ih
        rw [List.find?_cons_of_neg _ (by simp [ha])] at h
        exact h

/-- After an upsert the upserted document is what find? returns for its
id. -/
lemma find?_upsertDoc (i : String) (doc : RouteDoc) (db : List RouteDoc)
    (hdoc : doc.id = i) :
    (upsertDoc i doc db).find? (fun r => r.id = i) = some doc := by
  unfold upsertDoc
  cases hf : db.find? (fun r => r.id = i) with
  | none =>
      rw [List.find?_append, hf]
      simp [List.find?_cons_of_pos, hdoc]
  | some r0 =>
      apply find?_map_replace i doc hdoc
      rw [hf]
      rfl

/-- C8: saving a valid route document through POST /api/routes and then
fetching the same id through GET /api/routes/:routeId returns a
document with identical origin, destination, intermediateWaypoints and
photos, order preserved. -/
theorem routeRoundTrip_spec (i n c : String) (o d : Waypoint) (iw : List Waypoint)
    (ph : List Photo) (db : List RouteDoc)
    (hi : i ≠ "") (hn : n ≠ "") (hc : c ≠ "") :
    routeGET i (routesPOST ⟨some i, some n, some o, some d, iw, ph, some c⟩ db).2 =
      (200, some ⟨i, n, o, d, iw, ph, c⟩) := by
  rw [routesPOST_snd_valid i n c o d iw ph db hi hn hc]
  have hfind := find?_upsertDoc i ⟨i, n, o, d, iw, ph, c⟩ db rfl
  simp [routeGET, hi, hfind]

/-- Witness instantiating routeRoundTrip_spec on a concrete route with
one intermediate waypoint and one photo. -/
theorem routeRoundTrip_spec_witness :
    routeGET "r1" (routesPOST ⟨some "r1", some "Trip", some sampleOriginW,
        some sampleDestW, [sampleStopW], [linkedPhoto], some "user-1"⟩ []).2 =
      (200, some ⟨"r1", "Trip", sampleOriginW, sampleDestW, [sampleStopW],
        [linkedPhoto], "user-1"⟩) :=
  routeRoundTrip_spec "r1" "Trip" "user-1" sampleOriginW sampleDestW
    [sampleStopW] [linkedPhoto] [] (by decide) (by decide) (by decide)

/-- handleSetOrigin leaves the intermediate and photo collections
alone. -/
lemma handleSetOrigin_preserves (fid : String) (pl : PlaceResult) (s : PlannerState) :
    (handleSetOrigin fid pl s).intermediateWaypoints = s.intermediateWaypoints
    ∧ (handleSetOrigin fid pl s).photos = s.photos := by
  unfold handleSetOrigin
  cases createWaypoint fid pl <;> simp

/-- handleSetDestination leaves the intermediate and photo collections
alone. -/
lemma handleSetDestination_preserves (fid : String) (pl : PlaceResult) (s : PlannerState) :
    (handleSetDestination fid pl s).intermediateWaypoints = s.intermediateWaypoints
    ∧ (handleSetDestination fid pl s).photos = s.photos := by
  unfold handleSetDestination
  cases createWaypoint fid pl <;> simp

/-- addIntermediateWaypoint never touches the photo collection. -/
lemma addIntermediateWaypoint_photos (fid : String) (lat lng : ℚ)
    (nm ad : Option String) (s : PlannerState) :
    ((addIntermediateWaypoint fid lat lng nm ad s).1).photos = s.photos := by
  unfold addIntermediateWaypoint
  split <;> simp

/-- addIntermediateWaypoint keeps the intermediate count within the
limit. -/
lemma addIntermediateWaypoint_le (fid : String) (lat lng : ℚ)
    (nm ad : Option String) (s : PlannerState)
    (h : s.intermediateWaypoints.length ≤ MAX_INTERMEDIATE_WAYPOINTS) :
    ((addIntermediateWaypoint fid lat lng nm ad s).1).intermediateWaypoints.length
      ≤ MAX_INTERMEDIATE_WAYPOINTS := by
  unfold addIntermediateWaypoint
  split
  · exact h
  · rename_i hlt
    have : s.intermediateWaypoints.length < MAX_INTERMEDIATE_WAYPOINTS := Nat.lt_of_not_le hlt
    simp only [List.length_append, List.length_cons, List.length_nil]
    omega

/-- handleMapClick never touches the photo collection. -/
lemma handleMapClick_photos (fid : String) (lat lng : ℚ) (nm ad : String)
    (s : PlannerState) :
    ((handleMapClick fid lat lng nm ad s).1).photos = s.photos := by
  unfold handleMapClick
  dsimp only
  split
  · exact (handleSetOrigin_preserves fid _ s).2
  · split
    · exact (handleSetDestination_preserves fid _ s).2
    · split
      · exact addIntermediateWaypoint_photos fid lat lng (some nm) (some ad) s
      · rfl

/-- handleMapClick keeps the intermediate count within the limit. -/
lemma handleMapClick_le (fid : String) (lat lng : ℚ) (nm ad : String)
    (s : PlannerState)
    (h : s.intermediateWaypoints.length ≤ MAX_INTERMEDIATE_WAYPOINTS) :
    ((handleMapClick fid lat lng nm ad s).1).intermediateWaypoints.length
      ≤ MAX_INTERMEDIATE_WAYPOINTS := by
  unfold handleMapClick
  dsimp only
  split
  · rw [(handleSetOrigin_preserves fid _ s).1]; exact h
  · split
    · rw [(handleSetDestination_preserves fid _ s).1]; exact h
    · split
      · exact addIntermediateWaypoint_le fid lat lng (some nm) (some ad) s h
      · exact h

/-- The slot update of removeWaypoint keeps the intermediate count
within the limit. -/
lemma removeWaypointSlot_le (id : String) (s : PlannerState)
    (h : s.intermediateWaypoints.length ≤ MAX_INTERMEDIATE_WAYPOINTS) :
    (removeWaypointSlot id s).intermediateWaypoints.length
      ≤ MAX_INTERMEDIATE_WAYPOINTS := by
  unfold removeWaypointSlot
  split
  · exact h
  · split
    · exact h
    · simp only
      exact le_trans (List.length_filter_le _ _) h

/-- The photo collection after cascadeDeletePhotos is a subset of the
original. -/
lemma mem_of_mem_cascadeDeletePhotos (id : String) (photos : List Photo) (p : Photo)
    (h : p ∈ cascadeDeletePhotos id photos) : p ∈ photos := by
  unfold cascadeDeletePhotos at h
  split at h
  · exact (List.mem_filter.mp h).1
  · exact h

/-- removePhoto filters the photo collection by id. -/
lemma removePhoto_photos (id : String) (s : PlannerState) :
    (removePhoto id s).photos = s.photos.filter (fun p => p.id ≠ id) := by
  unfold removePhoto
  dsimp only
  split <;> simp

/-- handlePhotoFilesSelected does not change the waypoint collections. -/
lemma handlePhotoFilesSelected_waypoints (files : List (String × PhotoFile))
    (s : PlannerState) :
    (handlePhotoFilesSelected files s).intermediateWaypoints = s.intermediateWaypoints
    ∧ (handlePhotoFilesSelected files s).origin = s.origin
    ∧ (handlePhotoFilesSelected files s).destination = s.destination := by
  unfold handlePhotoFilesSelected
  split <;> simp

/-- Every photo in the collection after handlePhotoFilesSelected was
already present or was produced by processPhotoFile on one of the
selected files. -/
lemma handlePhotoFilesSelected_photos_mem (files : List (String × PhotoFile))
    (s : PlannerState) (p : Photo)
    (hp : p ∈ (handlePhotoFilesSelected files s).photos) :
    p ∈ s.photos ∨ ∃ pid f, (pid, f) ∈ files ∧
      processPhotoFile pid f s.photoUploadWaypointContext s.photoDescription
        = FileResult.added p := by
  unfold handlePhotoFilesSelected at hp
  split at hp
  · exact Or.inl (by simpa using hp)
  · dsimp only at hp
    rcases List.mem_append.mp hp with h1 | h2
    · exact Or.inl h1
    · right
      obtain ⟨r, hr, hmatch⟩ := List.mem_filterMap.mp h2
      obtain ⟨fp, hfp, hfr⟩ := List.mem_map.mp hr
      refine ⟨fp.1, fp.2, hfp, ?_⟩
      cases hres : processPhotoFile fp.1 fp.2 s.photoUploadWaypointContext s.photoDescription with
      | added q =>
          rw [← hfr, hres] at hmatch
          simp at hmatch
          rw [← hmatch]
          try exact hres
      | readError => rw [← hfr, hres] at hmatch; simp at hmatch
      | locationMissing => rw [← hfr, hres] at hmatch; simp at hmatch

/-- Any photo built by processPhotoFile satisfies the pairing
invariant. -/
lemma processPhotoFile_added_pairing (pid : String) (f : PhotoFile)
    (ctx : Option WaypointContext) (desc : String) (p : Photo)
    (h : processPhotoFile pid f ctx desc = FileResult.added p) : photoPairingOK p := by
  cases hr : f.readResult with
  | none => simp [processPhotoFile, hr] at h
  | some du =>
    cases hg : extractLocationFromPhoto f with
    | some loc =>
        simp [processPhotoFile, hr, hg] at h
        rw [← h]
        simp [photoPairingOK]
    | none =>
        cases hc : ctx with
        | some c =>
            simp [processPhotoFile, hr, hg, hc] at h
            rw [← h]
            simp [photoPairingOK]
        | none => simp [processPhotoFile, hr, hg, hc] at h

/-- One controller step preserves the intermediate-waypoint limit. -/
lemma applyStep_le (st : Step) (s : PlannerState)
    (h : s.intermediateWaypoints.length ≤ MAX_INTERMEDIATE_WAYPOINTS) :
    (applyStep st s).intermediateWaypoints.length ≤ MAX_INTERMEDIATE_WAYPOINTS := by
  cases st with
  | setRouteName n => exact h
  | setOrigin fid pl =>
      rw [show (applyStep (Step.setOrigin fid pl) s) = handleSetOrigin fid pl s from rfl,
        (handleSetOrigin_preserves fid pl s).1]
      exact h
  | setDestination fid pl =>
      rw [show (applyStep (Step.setDestination fid pl) s) = handleSetDestination fid pl s from rfl,
        (handleSetDestination_preserves fid pl s).1]
      exact h
  | addIntermediate fid lat lng nm ad => exact addIntermediateWaypoint_le fid lat lng nm ad s h
  | mapClick fid lat lng nm ad => exact handleMapClick_le fid lat lng nm ad s h
  | removeWaypointStep id =>
      rw [show applyStep (Step.removeWaypointStep id) s = removeWaypoint id s from rfl,
        (removeWaypoint_fields id s).2.2.1]
      exact removeWaypointSlot_le id s h
  | removePhotoStep id =>
      rw [show applyStep (Step.removePhotoStep id) s = removePhoto id s from rfl,
        (removePhoto_frame id s).2.2.2.2]
      exact h
  | addPhotoClick w => exact h
  | infoWindowClose => exact h
  | setPhotoDescription d => exact h
  | filesSelected files =>
      rw [show applyStep (Step.filesSelected files) s = handlePhotoFilesSelected files s from rfl,
        (handlePhotoFilesSelected_waypoints files s).1]
      exact h
  | saveSuccess rid =>
      show (handleSaveRouteSuccess rid s).intermediateWaypoints.length ≤ _
      unfold handleSaveRouteSuccess
      split <;> simpa using h
  | saveFailure =>
      show (handleSaveRouteFailure s).intermediateWaypoints.length ≤ _
      unfold handleSaveRouteFailure
      split <;> simpa using h

/-- Every reachable controller state respects the intermediate-waypoint
limit. -/
lemma reachable_le (s : PlannerState) (h : Reachable s) :
    s.intermediateWaypoints.length ≤ MAX_INTERMEDIATE_WAYPOINTS := by
  induction h with
  | init => simp [initialState]
  | step s' st _ ih => exact applyStep_le st s' ih

/-- One controller step preserves the pairing invariant of every photo
in the collection. -/
lemma applyStep_pairing (st : Step) (s : PlannerState)
    (ih : ∀ p ∈ s.photos, photoPairingOK p) :
    ∀ p ∈ (applyStep st s).photos, photoPairingOK p := by
  cases st with
  | setRouteName n => exact ih
  | setOrigin fid pl =>
      intro p hp
      rw [show applyStep (Step.setOrigin fid pl) s = handleSetOrigin fid pl s from rfl,
        (handleSetOrigin_preserves fid pl s).2] at hp
      exact ih p hp
  | setDestination fid pl =>
      intro p hp
      rw [show applyStep (Step.setDestination fid pl) s = handleSetDestination fid pl s from rfl,
        (handleSetDestination_preserves fid pl s).2] at hp
      exact ih p hp
  | addIntermediate fid lat lng nm ad =>
      intro p hp
      rw [show applyStep (Step.addIntermediate fid lat lng nm ad) s =
          (addIntermediateWaypoint fid lat lng nm ad s).1 from rfl,
        addIntermediateWaypoint_photos fid lat lng nm ad s] at hp
      exact ih p hp
  | mapClick fid lat lng nm ad =>
      intro p hp
      rw [show applyStep (Step.mapClick fid lat lng nm ad) s =
          (handleMapClick fid lat lng nm ad s).1 from rfl,
        handleMapClick_photos fid lat lng nm ad s] at hp
      exact ih p hp
  | removeWaypointStep id =>
      intro p hp
      rw [show applyStep (Step.removeWaypointStep id) s = removeWaypoint id s from rfl,
        (removeWaypoint_fields id s).2.2.2.1] at hp
      exact ih p (mem_of_mem_cascadeDeletePhotos id s.photos p hp)
  | removePhotoStep id =>
      intro p hp
      rw [show applyStep (Step.removePhotoStep id) s = removePhoto id s from rfl,
        removePhoto_photos id s] at hp
      exact ih p (List.mem_filter.mp hp).1
  | addPhotoClick w => exact ih
  | infoWindowClose => exact ih
  | setPhotoDescription d => exact ih
  | filesSelected files =>
      intro p hp
      rcases handlePhotoFilesSelected_photos_mem files s p hp with h1 | ⟨pid, f, _, hres⟩
      · exact ih p h1
      · exact processPhotoFile_added_pairing pid f s.photoUploadWaypointContext
          s.photoDescription p hres
  | saveSuccess rid =>
      intro p hp
      have : (handleSaveRouteSuccess rid s).photos = s.photos := by
        unfold handleSaveRouteSuccess
        split <;> simp
      rw [show applyStep (Step.saveSuccess rid) s = handleSaveRouteSuccess rid s from rfl,
        this] at hp
      exact ih p hp
  | saveFailure =>
      intro p hp
      have : (handleSaveRouteFailure s).photos = s.photos := by
        unfold handleSaveRouteFailure
        split <;> simp
      rw [show applyStep Step.saveFailure s = handleSaveRouteFailure s from rfl, this] at hp
      exact ih p hp

/-- Every photo of a reachable controller state satisfies the pairing
invariant. -/
lemma reachable_pairing (s : PlannerState) (h : Reachable s) :
    ∀ p ∈ s.photos, photoPairingOK p := by
  induction h with
  | init => intro p hp; simp [initialState] at hp
  | step s' st _ ih => exact applyStep_pairing st s' ih

/-- C1 counterexample: POST /api/photos/upload accepts a request whose
locationSource is exif but which still carries a waypointId, and
appends the resulting invariant-violating photo to the route. -/
theorem photoPairing_counterexample :
    (uploadPhotoPOST exifUploadBody "photo-9" "https-img" [sampleRouteDoc]).1 = 201
    ∧ (uploadPhotoPOST exifUploadBody "photo-9" "https-img" [sampleRouteDoc]).2.map
        RouteDoc.photos =
        [[{ id := "photo-9", url := "https-img", location := ⟨1, 2⟩,
            waypointId := some "wp-1", description := "",
            locationSource := LocationSource.exif }]]
    ∧ ¬ photoPairingOK
        { id := "photo-9", url := "https-img", location := ⟨1, 2⟩,
          waypointId := some "wp-1", description := "",
          locationSource := LocationSource.exif } := by
  refine ⟨rfl, rfl, ?_⟩
  intro hbad
  exact absurd (hbad (by simp)) (by simp)

/-- C1 (amended): every photo created client-side by
handlePhotoFilesSelected satisfies the pairing invariant, so the
invariant holds in every reachable controller state; the server-side
POST /api/photos/upload, however, copies waypointId and locationSource
verbatim from the request body, so the photo it appends satisfies the
pairing invariant exactly when the request body itself does. -/
theorem photoPairing_amended :
    (∀ s : PlannerState, Reachable s → ∀ p ∈ s.photos, photoPairingOK p)
    ∧ (∀ (b : UploadBody) (photoId photoUrl : String) (loc : Coordinates)
        (src : LocationSource) (db : List RouteDoc),
        b.location = some loc → b.locationSource = some src →
        b.routeId ≠ "" → b.photoDataUrl ≠ "" →
        (db.find? fun r => r.id = b.routeId).isSome = true →
        uploadPhotoPOST b photoId photoUrl db =
          (201, db.map fun r =>
            if r.id = b.routeId then
              { r with photos := r.photos ++ [mkUploadPhoto photoId photoUrl loc b src] }
            else r)
        ∧ (photoPairingOK (mkUploadPhoto photoId photoUrl loc b src) ↔
            (b.waypointId ≠ none → src = LocationSource.waypoint))) := by
  constructor
  · exact reachable_pairing
  · intro b pid purl loc src db hloc hsrc hrid hurl hfind
    constructor
    · simp [uploadPhotoPOST, hloc, hsrc, hrid, hurl, hfind]
    · simp [photoPairingOK, mkUploadPhoto]

/-- Witness instantiating photoPairing_amended on the initial state and
on a pairing-respecting upload request. -/
theorem photoPairing_amended_witness :
    (∀ p ∈ initialState.photos, photoPairingOK p)
    ∧ uploadPhotoPOST pairedUploadBody "photo-8" "https-img2" [sampleRouteDoc] =
        (201, [sampleRouteDoc].map fun r =>
          if r.id = pairedUploadBody.routeId then
            { r with photos := r.photos ++
                [mkUploadPhoto "photo-8" "https-img2" ⟨3, 4⟩ pairedUploadBody
                  LocationSource.waypoint] }
          else r) := by
  constructor
  · exact photoPairing_amended.1 initialState Reachable.init
  · exact (photoPairing_amended.2 pairedUploadBody "photo-8" "https-img2" ⟨3, 4⟩
      LocationSource.waypoint [sampleRouteDoc] rfl rfl (by decide) (by decide) rfl).1

/-- C6: every reachable controller state has at most 8 intermediate
waypoints; at the limit both addIntermediateWaypoint and the map-click
handler are no-ops that surface the limit warning; below the limit the
waypoint is appended with a synthesized sequence-based default name
when none is supplied. -/
theorem intermediateWaypointLimit_spec (s : PlannerState) (h : Reachable s) :
    s.intermediateWaypoints.length ≤ MAX_INTERMEDIATE_WAYPOINTS
    ∧ (s.intermediateWaypoints.length = MAX_INTERMEDIATE_WAYPOINTS →
        (∀ (fid : String) (lat lng : ℚ) (nm ad : Option String),
          addIntermediateWaypoint fid lat lng nm ad s = (s, true))
        ∧ (∀ (fid : String) (lat lng : ℚ) (nm ad : String),
            s.origin ≠ none → s.destination ≠ none →
            handleMapClick fid lat lng nm ad s = (s, true)))
    ∧ (s.intermediateWaypoints.length < MAX_INTERMEDIATE_WAYPOINTS →
        ∀ (fid : String) (lat lng : ℚ) (ad : Option String),
          addIntermediateWaypoint fid lat lng none ad s =
            ({ s with
                intermediateWaypoints := s.intermediateWaypoints ++
                  [{ id := fid, lat := lat, lng := lng,
                     name := some ("Waypoint " ++
                       toString (s.intermediateWaypoints.length + 1)),
                     address := some (ad.getD (coordLabel lat lng)) }],
                activeMarker := some fid }, false)) := by
  refine ⟨reachable_le s h, ?_, ?_⟩
  · intro hlen
    constructor
    · intro fid lat lng nm ad
      unfold addIntermediateWaypoint
      rw [if_pos (le_of_eq hlen.symm)]
    · intro fid lat lng nm ad ho hd
      unfold handleMapClick
      dsimp only
      rw [if_neg ho, if_neg hd, if_neg (by rw [hlen]; exact lt_irrefl _)]
  · intro hlt fid lat lng ad
    unfold addIntermediateWaypoint
    rw [if_neg (Nat.not_le.mpr hlt)]
    rfl

/-- Witness instantiating intermediateWaypointLimit_spec on the initial
state (appending below the limit). -/
theorem intermediateWaypointLimit_spec_witness :
    initialState.intermediateWaypoints.length ≤ MAX_INTERMEDIATE_WAYPOINTS
    ∧ addIntermediateWaypoint "wp-1" 1 2 none none initialState =
        ({ initialState with
            intermediateWaypoints := initialState.intermediateWaypoints ++
              [{ id := "wp-1", lat := 1, lng := 2,
                 name := some ("Waypoint " ++
                   toString (initialState.intermediateWaypoints.length + 1)),
                 address := some ((none : Option String).getD (coordLabel 1 2)) }],
            activeMarker := some "wp-1" }, false) := by
  have h := intermediateWaypointLimit_spec initialState Reachable.init
  exact ⟨h.1, h.2.2 (by decide) "wp-1" 1 2 none⟩

end RoutesPlanner
